import Mathlib

set_option autoImplicit false

/-!
Verification of the peerjs-server WebSocket connection layer
(`src/dist/src/services/webSocketServer/index.js`).

The source file contains two variants of the `WebSocketServer` class: a
compiled-JavaScript variant (lines 1-111) and a TypeScript variant
(lines 112-275).  Both are embedded below as state-transition functions
over an explicit `ServerState`.  External collaborators (the realm
registry, the `Client` model, the enums, JSON parsing and the raw
socket) are not part of the provided sources; they are modelled from
the spec where noted.
-/

/-- Modelled from the spec: the protocol-rejection error kinds of the
external `Errors` enum (`src/enums`, not provided).  The spec names
them `InvalidParameters`, `InvalidKey`, `ConnectionLimitExceeded`; the
source refers to them as below. -/
inductive Errors where
  | INVALID_WS_PARAMETERS
  | INVALID_KEY
  | CONNECTION_LIMIT_EXCEED
  deriving DecidableEq, Repr

/-- Wire frames sent on a socket.  `openF` is `{type:"OPEN"}`, `errorF e`
is `{type:"ERROR",payload:{msg:...}}`, `idTakenF` is
`{type:"ID_TAKEN",payload:{msg:"ID is taken"}}`. -/
inductive Frame where
  | openF : Frame
  | errorF : Errors → Frame
  | idTakenF : Frame
  deriving DecidableEq, Repr

/-- Modelled from the spec: message strings of the external `Errors` enum
are opaque; we use the enum constructor names. -/
def Errors.msgText : Errors → String
  | .INVALID_WS_PARAMETERS => "INVALID_WS_PARAMETERS"
  | .INVALID_KEY => "INVALID_KEY"
  | .CONNECTION_LIMIT_EXCEED => "CONNECTION_LIMIT_EXCEED"

/-- The wire `type` field of a frame (external `MessageType` enum; the
spec gives the wire strings `"OPEN"`, `"ERROR"`, `"ID_TAKEN"`). -/
def Frame.typeString : Frame → String
  | .openF => "OPEN"
  | .errorF _ => "ERROR"
  | .idTakenF => "ID_TAKEN"

/-- The wire `payload.msg` field of a frame, when present. -/
def Frame.payloadMsg : Frame → Option String
  | .openF => none
  | .errorF e => some e.msgText
  | .idTakenF => some "ID is taken"

/-- Modelled from the spec: a relayed message is an opaque structured
payload with a (possibly absent) `src` field; the rest of the payload is
opaque. -/
structure Msg where
  src : Option String
  body : String
  deriving DecidableEq, Repr

/-- Modelled from the spec: inbound transport data either parses as
structured data (`JSON.parse` succeeds) or fails to parse. -/
inductive RawData where
  | malformed : RawData
  | wellFormed : Msg → RawData
  deriving DecidableEq, Repr

/-- The external JSON parse, as seen through `RawData`. -/
def parseData : RawData → Option Msg
  | .malformed => none
  | .wellFormed m => some m

/-- Upward notifications.  Client objects are named by their index in the
client store.  `connectionReady c` is `emit("connection", c)`,
`sessionClosed c` is `emit("close", c)`, `messageReceived` is
`emit("message", c, m)`, `relayError` is the non-fatal
`emit("error", e)` from the message handler, and `evicted c` is the
`onClose` callback invoked on eviction. -/
inductive Event where
  | connectionReady : Nat → Event
  | sessionClosed : Nat → Event
  | messageReceived : Nat → Msg → Event
  | relayError : Event
  | evicted : Nat → Event
  deriving DecidableEq, Repr

/-- Modelled from the spec: the external `Client` entity holds an
identifier, a secret token and a nullable transport handle
(`getId`/`getToken`/`getSocket`/`setSocket`).  Sockets are named by
index into the socket store. -/
structure ClientData where
  id : String
  token : String
  socket : Option Nat
  deriving DecidableEq, Repr

/-- State of one raw socket: the frames the server sent on it, whether
the server has called `close()` on it, and whether a `close()` call on
it raises an error (modelling "errors during this close"). -/
structure SocketData where
  sent : List Frame
  closed : Bool
  closeRaises : Bool
  deriving DecidableEq, Repr

/-- The configuration consumed: shared key and concurrent-session
ceiling (`config.key`, `config.concurrent_limit`). -/
structure Config where
  key : String
  concurrent_limit : Nat
  deriving DecidableEq, Repr

/-- The handshake query parameters `{id, token, key}`; `none` models an
absent parameter. -/
structure Query where
  id : Option String
  token : Option String
  key : Option String
  deriving DecidableEq, Repr

/-- The whole observable state: the client-object store (indices model
object identity), the realm registry as an association list from
identifier to client index, the realm's pending message queues, the
`(socket, client)` pairs for which `_configureWS` attached handlers,
the socket store, and the log of emitted events. -/
structure ServerState where
  clients : List ClientData
  registry : List (String × Nat)
  queues : List (String × List Msg)
  handlers : List (Nat × Nat)
  sockets : List SocketData
  events : List Event
  deriving DecidableEq, Repr

/-- The empty initial state. -/
def initState : ServerState := ⟨[], [], [], [], [], []⟩

/-- Apply `f` to the element at index `i`, if any. -/
def modifyIdx {α : Type} : List α → Nat → (α → α) → List α
  | [], _, _ => []
  | a :: t, 0, f => f a :: t
  | a :: t, n + 1, f => a :: modifyIdx t n f

/-- Read a client object from the store (dangling indices yield a dummy
client; reachable states never contain dangling indices). -/
def clientAt (st : ServerState) (c : Nat) : ClientData :=
  st.clients.getD c ⟨"", "", none⟩

/-- Read a socket from the store. -/
def socketAt (st : ServerState) (s : Nat) : SocketData :=
  st.sockets.getD s ⟨[], false, false⟩

/-- JavaScript truthiness of a query parameter: `!x` holds when the
parameter is absent or the empty string. -/
def falsy : Option String → Bool
  | none => true
  | some s => s = ""

/-- Modelled from the spec: realm `lookup(id)` — the first registry
binding for `id`. -/
def getClientById (st : ServerState) (id : String) : Option Nat :=
  (st.registry.find? (fun p => p.1 = id)).map Prod.snd

/-- Modelled from the spec: realm `remove(id)` — drop the (unique)
binding for `id`. -/
def removeClientById (st : ServerState) (id : String) : ServerState :=
  { st with registry := st.registry.eraseP (fun p => p.1 = id) }

/-- Modelled from the spec: realm `insert(session, id)` — add a binding
from `id` to the client index. -/
def setClient (st : ServerState) (id : String) (c : Nat) : ServerState :=
  { st with registry := (id, c) :: st.registry }

/-- Modelled from the spec: realm `clearQueue(id)` — drop the pending
message queue for `id`. -/
def clearMessageQueue (st : ServerState) (id : String) : ServerState :=
  { st with queues := st.queues.filter (fun p => p.1 ≠ id) }

/-- The pending queue for `id` (empty when none is stored). -/
def queueOf (st : ServerState) (id : String) : List Msg :=
  ((st.queues.find? (fun p => p.1 = id)).map Prod.snd).getD []

/-- `realm.getClientsIds().length`: number of live registry entries. -/
def clientsCount (st : ServerState) : Nat := st.registry.length

/-- `client.setSocket(s)` on the client object at index `c`. -/
def setClientSocket (st : ServerState) (c : Nat) (s : Option Nat) : ServerState :=
  { st with clients := modifyIdx st.clients c (fun cd => { cd with socket := s }) }

/-- `this.emit(...)` / callback invocation: append to the event log. -/
def emit (st : ServerState) (e : Event) : ServerState :=
  { st with events := st.events ++ [e] }

/-- `socket.send(JSON.stringify(frame))`. -/
def sendFrame (st : ServerState) (s : Nat) (f : Frame) : ServerState :=
  { st with sockets := modifyIdx st.sockets s (fun sd => { sd with sent := sd.sent ++ [f] }) }

/-- `socket.close()`.  The returned Bool is true when the call raised an
error; the socket is treated as closed either way (the server abandons
it).  Raising only matters where the source guards the call with
`try`/`finally`. -/
def closeSocket (st : ServerState) (s : Nat) : ServerState × Bool :=
  ({ st with sockets := modifyIdx st.sockets s (fun x => { x with closed := true }) },
   (st.sockets.getD s ⟨[], false, false⟩).closeRaises)

/-- `_sendErrorAndClose` (both variants, identical): send an ERROR frame
then close the socket. -/
def sendErrorAndClose (st : ServerState) (s : Nat) (e : Errors) : ServerState :=
  (closeSocket (sendFrame st s (.errorF e)) s).1

/-- `_configureWS` (both variants, identical): bind the socket to the
client object, attach the close and message handlers for the pair, and
emit `connection`. -/
def configureWS (st : ServerState) (s : Nat) (c : Nat) : ServerState :=
  let st1 := setClientSocket st c (some s)
  let st2 := { st1 with handlers := st1.handlers ++ [(s, c)] }
  emit st2 (.connectionReady c)

/-- `_registerClient` (both variants, identical): enforce the concurrent
limit, else create a fresh client object, insert it into the realm,
send the OPEN frame and configure the socket. -/
def registerClient (cfg : Config) (st : ServerState) (s : Nat) (id token : String) :
    ServerState :=
  if cfg.concurrent_limit ≤ clientsCount st then
    sendErrorAndClose st s .CONNECTION_LIMIT_EXCEED
  else
    let c := st.clients.length
    let st1 := { st with clients := st.clients ++ [⟨id, token, none⟩] }
    let st2 := setClient st1 id c
    let st3 := sendFrame st2 s .openF
    configureWS st3 s c

/-- The `try { client.getSocket()?.close() } finally { ... }` eviction
block shared by both variants (JS lines 40-50, TS lines 181-192):
best-effort close of the old transport, then — regardless of whether
that close raised — clear the queue, remove the client from the realm,
null its socket and invoke the `onClose` callback.  The returned Bool
records whether the close raised (in which case the exception
propagates after the `finally` block). -/
def evict (st : ServerState) (id : String) (c : Nat) : ServerState × Bool :=
  let p := match (clientAt st c).socket with
    | some old => closeSocket st old
    | none => (st, false)
  let st2 := clearMessageQueue p.1 id
  let st3 := removeClientById st2 id
  let st4 := setClientSocket st3 c none
  (emit st4 (.evicted c), p.2)

/-- `_onSocketConnection`, TypeScript variant (source lines 162-211).
`freshTok` models the random token produced by
`Math.random().toString(36).substr(2)` on line 194. -/
def onSocketConnectionTS (cfg : Config) (freshTok : String) (st : ServerState)
    (sock : Nat) (q : Query) : ServerState :=
  if falsy q.id || falsy q.token || falsy q.key then
    sendErrorAndClose st sock .INVALID_WS_PARAMETERS
  else
    let id := q.id.getD ""
    let token := q.token.getD ""
    let key := q.key.getD ""
    if key ≠ cfg.key then
      sendErrorAndClose st sock .INVALID_KEY
    else
      match getClientById st id with
      | some c =>
        if token = "__RECONNECT__" then
          let p := evict st id c
          if p.2 then p.1
          else registerClient cfg p.1 sock id freshTok
        else if token ≠ (clientAt st c).token then
          (closeSocket (sendFrame st sock .idTakenF) sock).1
        else
          configureWS st sock c
      | none => registerClient cfg st sock id token

/-- `_onSocketConnection`, compiled-JavaScript variant (source lines
26-65).  Identical to the TS variant except that after eviction it
registers the replacement client with the presented token (line 64)
instead of a regenerated one. -/
def onSocketConnectionJS (cfg : Config) (st : ServerState)
    (sock : Nat) (q : Query) : ServerState :=
  if falsy q.id || falsy q.token || falsy q.key then
    sendErrorAndClose st sock .INVALID_WS_PARAMETERS
  else
    let id := q.id.getD ""
    let token := q.token.getD ""
    let key := q.key.getD ""
    if key ≠ cfg.key then
      sendErrorAndClose st sock .INVALID_KEY
    else
      match getClientById st id with
      | some c =>
        if token = "__RECONNECT__" then
          let p := evict st id c
          if p.2 then p.1
          else registerClient cfg p.1 sock id token
        else if token ≠ (clientAt st c).token then
          (closeSocket (sendFrame st sock .idTakenF) sock).1
        else
          configureWS st sock c
      | none => registerClient cfg st sock id token

/-- The close handler attached by `_configureWS` for the pair
`(sock, c)`: if the client's current socket is exactly this socket,
remove it from the realm and emit `close`; otherwise do nothing. -/
def runCloseHandler (st : ServerState) (sock c : Nat) : ServerState :=
  if (clientAt st c).socket = some sock then
    emit (removeClientById st (clientAt st c).id) (.sessionClosed c)
  else st

/-- The message handler attached by `_configureWS` for client `c`:
parse the data; on success overwrite `src` with the client's id and
emit `message`; on failure emit the non-fatal error. -/
def runMessageHandler (st : ServerState) (c : Nat) (data : RawData) : ServerState :=
  match parseData data with
  | some m => emit st (.messageReceived c { m with src := some (clientAt st c).id })
  | none => emit st .relayError

/-- Delivery of a transport close event on socket `sock`: run every
close handler attached to that socket (reachable states attach at most
one). -/
def onSocketCloseEvent (st : ServerState) (sock : Nat) : ServerState :=
  (st.handlers.filter (fun h => h.1 = sock)).foldl
    (fun s h => runCloseHandler s sock h.2) st

/-- Delivery of inbound data on socket `sock`: run every message
handler attached to that socket. -/
def onSocketMessageEvent (st : ServerState) (sock : Nat) (data : RawData) : ServerState :=
  (st.handlers.filter (fun h => h.1 = sock)).foldl
    (fun s h => runMessageHandler s h.2 data) st

/-- Environment steps: a new connection attempt (the transport layer
allocates a fresh socket, whose `close()` may or may not raise, and the
TS variant draws `freshTok`), a delayed transport close event, or
inbound data. -/
inductive SStep where
  | connect : Query → Bool → String → SStep
  | closeEvt : Nat → SStep
  | msgEvt : Nat → RawData → SStep

/-- Allocate a fresh socket for an inbound connection. -/
def newSocket (st : ServerState) (raises : Bool) : ServerState × Nat :=
  ({ st with sockets := st.sockets ++ [⟨[], false, raises⟩] }, st.sockets.length)

/-- One system step.  `regen = true` runs the TS variant,
`regen = false` the JS variant. -/
def applyStep (regen : Bool) (cfg : Config) (st : ServerState) : SStep → ServerState
  | .connect q r ft =>
    let p := newSocket st r
    if regen then onSocketConnectionTS cfg ft p.1 p.2 q
    else onSocketConnectionJS cfg p.1 p.2 q
  | .closeEvt s => onSocketCloseEvent st s
  | .msgEvt s d => onSocketMessageEvent st s d

/-- States reachable from the empty server by environment steps. -/
inductive Reachable (regen : Bool) (cfg : Config) : ServerState → Prop where
  | init : Reachable regen cfg initState
  | step {st : ServerState} (s : SStep) :
      Reachable regen cfg st → Reachable regen cfg (applyStep regen cfg st s)

/-! ### Basic lemmas about the state operations -/

@[simp] theorem length_modifyIdx {α : Type} (l : List α) (i : Nat) (f : α → α) :
    (modifyIdx l i f).length = l.length := by
  induction l generalizing i with
  | nil => rfl
  | cons a t ih =>
    cases i with
    | zero => rfl
    | succ n => simp [modifyIdx, ih]

theorem getElem?_modifyIdx {α : Type} (l : List α) (i j : Nat) (f : α → α) :
    (modifyIdx l i f)[j]? = if i = j then (l[j]?).map f else l[j]? := by
  induction l generalizing i j with
  | nil => simp [modifyIdx]
  | cons a t ih =>
    cases i with
    | zero =>
      cases j with
      | zero => simp [modifyIdx]
      | succ m => simp [modifyIdx]
    | succ n =>
      cases j with
      | zero => simp [modifyIdx]
      | succ m =>
        simp only [modifyIdx, List.getElem?_cons_succ, ih]
        by_cases h : n = m <;> simp [h]

theorem getD_modifyIdx_self {α : Type} (l : List α) (i : Nat) (f : α → α) (d : α)
    (h : i < l.length) : (modifyIdx l i f).getD i d = f (l.getD i d) := by
  simp [List.getD_eq_getElem?_getD, getElem?_modifyIdx, List.getElem?_eq_getElem h]

theorem getD_modifyIdx_of_ne {α : Type} (l : List α) (i j : Nat) (f : α → α) (d : α)
    (h : i ≠ j) : (modifyIdx l i f).getD j d = l.getD j d := by
  simp [List.getD_eq_getElem?_getD, getElem?_modifyIdx, h]

theorem modifyIdx_append_length {α : Type} (l : List α) (a : α) (f : α → α) :
    modifyIdx (l ++ [a]) l.length f = l ++ [f a] := by
  induction l with
  | nil => rfl
  | cons b t ih => simp [modifyIdx, ih]

@[simp] theorem emit_registry (st : ServerState) (e : Event) : (emit st e).registry = st.registry := rfl
@[simp] theorem emit_clients (st : ServerState) (e : Event) : (emit st e).clients = st.clients := rfl
@[simp] theorem emit_queues (st : ServerState) (e : Event) : (emit st e).queues = st.queues := rfl
@[simp] theorem emit_handlers (st : ServerState) (e : Event) : (emit st e).handlers = st.handlers := rfl
@[simp] theorem emit_sockets (st : ServerState) (e : Event) : (emit st e).sockets = st.sockets := rfl
@[simp] theorem emit_events (st : ServerState) (e : Event) : (emit st e).events = st.events ++ [e] := rfl

@[simp] theorem sendFrame_registry (st : ServerState) (s : Nat) (f : Frame) : (sendFrame st s f).registry = st.registry := rfl
@[simp] theorem sendFrame_clients (st : ServerState) (s : Nat) (f : Frame) : (sendFrame st s f).clients = st.clients := rfl
@[simp] theorem sendFrame_queues (st : ServerState) (s : Nat) (f : Frame) : (sendFrame st s f).queues = st.queues := rfl
@[simp] theorem sendFrame_handlers (st : ServerState) (s : Nat) (f : Frame) : (sendFrame st s f).handlers = st.handlers := rfl
@[simp] theorem sendFrame_events (st : ServerState) (s : Nat) (f : Frame) : (sendFrame st s f).events = st.events := rfl

@[simp] theorem closeSocket_fst_registry (st : ServerState) (s : Nat) : (closeSocket st s).1.registry = st.registry := rfl
@[simp] theorem closeSocket_fst_clients (st : ServerState) (s : Nat) : (closeSocket st s).1.clients = st.clients := rfl
@[simp] theorem closeSocket_fst_queues (st : ServerState) (s : Nat) : (closeSocket st s).1.queues = st.queues := rfl
@[simp] theorem closeSocket_fst_handlers (st : ServerState) (s : Nat) : (closeSocket st s).1.handlers = st.handlers := rfl
@[simp] theorem closeSocket_fst_events (st : ServerState) (s : Nat) : (closeSocket st s).1.events = st.events := rfl
@[simp] theorem closeSocket_snd (st : ServerState) (s : Nat) : (closeSocket st s).2 = (socketAt st s).closeRaises := rfl

@[simp] theorem setClientSocket_registry (st : ServerState) (c : Nat) (s : Option Nat) : (setClientSocket st c s).registry = st.registry := rfl
@[simp] theorem setClientSocket_queues (st : ServerState) (c : Nat) (s : Option Nat) : (setClientSocket st c s).queues = st.queues := rfl
@[simp] theorem setClientSocket_handlers (st : ServerState) (c : Nat) (s : Option Nat) : (setClientSocket st c s).handlers = st.handlers := rfl
@[simp] theorem setClientSocket_sockets (st : ServerState) (c : Nat) (s : Option Nat) : (setClientSocket st c s).sockets = st.sockets := rfl
@[simp] theorem setClientSocket_events (st : ServerState) (c : Nat) (s : Option Nat) : (setClientSocket st c s).events = st.events := rfl

@[simp] theorem clearMessageQueue_registry (st : ServerState) (id : String) : (clearMessageQueue st id).registry = st.registry := rfl
@[simp] theorem clearMessageQueue_clients (st : ServerState) (id : String) : (clearMessageQueue st id).clients = st.clients := rfl
@[simp] theorem clearMessageQueue_handlers (st : ServerState) (id : String) : (clearMessageQueue st id).handlers = st.handlers := rfl
@[simp] theorem clearMessageQueue_sockets (st : ServerState) (id : String) : (clearMessageQueue st id).sockets = st.sockets := rfl
@[simp] theorem clearMessageQueue_events (st : ServerState) (id : String) : (clearMessageQueue st id).events = st.events := rfl

@[simp] theorem removeClientById_clients (st : ServerState) (id : String) : (removeClientById st id).clients = st.clients := rfl
@[simp] theorem removeClientById_queues (st : ServerState) (id : String) : (removeClientById st id).queues = st.queues := rfl
@[simp] theorem removeClientById_handlers (st : ServerState) (id : String) : (removeClientById st id).handlers = st.handlers := rfl
@[simp] theorem removeClientById_sockets (st : ServerState) (id : String) : (removeClientById st id).sockets = st.sockets := rfl
@[simp] theorem removeClientById_events (st : ServerState) (id : String) : (removeClientById st id).events = st.events := rfl
theorem removeClientById_registry (st : ServerState) (id : String) :
    (removeClientById st id).registry = st.registry.eraseP (fun p => p.1 = id) := rfl

theorem sendErrorAndClose_registry (st : ServerState) (s : Nat) (e : Errors) : (sendErrorAndClose st s e).registry = st.registry := rfl
theorem sendErrorAndClose_clients (st : ServerState) (s : Nat) (e : Errors) : (sendErrorAndClose st s e).clients = st.clients := rfl
theorem sendErrorAndClose_queues (st : ServerState) (s : Nat) (e : Errors) : (sendErrorAndClose st s e).queues = st.queues := rfl
theorem sendErrorAndClose_handlers (st : ServerState) (s : Nat) (e : Errors) : (sendErrorAndClose st s e).handlers = st.handlers := rfl
theorem sendErrorAndClose_events (st : ServerState) (s : Nat) (e : Errors) : (sendErrorAndClose st s e).events = st.events := rfl

theorem socketAt_sendErrorAndClose_self (st : ServerState) (s : Nat) (e : Errors)
    (hs : s < st.sockets.length) :
    socketAt (sendErrorAndClose st s e) s =
      { socketAt st s with sent := (socketAt st s).sent ++ [Frame.errorF e], closed := true } := by
  simp only [sendErrorAndClose, closeSocket, sendFrame, socketAt]
  rw [getD_modifyIdx_self, getD_modifyIdx_self]
  · exact hs
  · simpa using hs

theorem socketAt_sendErrorAndClose_ne (st : ServerState) (s s' : Nat) (e : Errors)
    (h : s ≠ s') : socketAt (sendErrorAndClose st s e) s' = socketAt st s' := by
  simp only [sendErrorAndClose, closeSocket, sendFrame, socketAt]
  rw [getD_modifyIdx_of_ne _ _ _ _ _ h, getD_modifyIdx_of_ne _ _ _ _ _ h]

theorem socketAt_sendFrame_self (st : ServerState) (s : Nat) (f : Frame)
    (hs : s < st.sockets.length) :
    socketAt (sendFrame st s f) s = { socketAt st s with sent := (socketAt st s).sent ++ [f] } := by
  simp only [sendFrame, socketAt]
  rw [getD_modifyIdx_self _ _ _ _ hs]

theorem socketAt_sendFrame_ne (st : ServerState) (s s' : Nat) (f : Frame)
    (h : s ≠ s') : socketAt (sendFrame st s f) s' = socketAt st s' := by
  simp only [sendFrame, socketAt]
  rw [getD_modifyIdx_of_ne _ _ _ _ _ h]

theorem socketAt_closeSocket_self (st : ServerState) (s : Nat)
    (hs : s < st.sockets.length) :
    socketAt (closeSocket st s).1 s = { socketAt st s with closed := true } := by
  simp only [closeSocket, socketAt]
  rw [getD_modifyIdx_self _ _ _ _ hs]

theorem socketAt_closeSocket_ne (st : ServerState) (s s' : Nat)
    (h : s ≠ s') : socketAt (closeSocket st s).1 s' = socketAt st s' := by
  simp only [closeSocket, socketAt]
  rw [getD_modifyIdx_of_ne _ _ _ _ _ h]

theorem clientAt_setClientSocket_self (st : ServerState) (c : Nat) (s : Option Nat)
    (hc : c < st.clients.length) :
    clientAt (setClientSocket st c s) c = { clientAt st c with socket := s } := by
  simp only [setClientSocket, clientAt]
  rw [getD_modifyIdx_self _ _ _ _ hc]

theorem clientAt_setClientSocket_ne (st : ServerState) (c c' : Nat) (s : Option Nat)
    (h : c ≠ c') : clientAt (setClientSocket st c s) c' = clientAt st c' := by
  simp only [setClientSocket, clientAt]
  rw [getD_modifyIdx_of_ne _ _ _ _ _ h]

/-! ### Claim theorems -/

/-- C5: a connection attempt missing any of id, token, key fails with
INVALID_WS_PARAMETERS (error frame sent on the socket, socket closed)
and touches neither the registry, the clients, the queues, the handlers
nor the event log; an attempt with all three present but a key unequal
to the configured key fails likewise with INVALID_KEY. -/
theorem gate_invalid_params_and_key (cfg : Config) (ft : String) (st : ServerState)
    (sock : Nat) (q : Query) (hs : sock < st.sockets.length) :
    ((falsy q.id || falsy q.token || falsy q.key) = true →
      (onSocketConnectionTS cfg ft st sock q).registry = st.registry ∧
      (onSocketConnectionTS cfg ft st sock q).clients = st.clients ∧
      (onSocketConnectionTS cfg ft st sock q).queues = st.queues ∧
      (onSocketConnectionTS cfg ft st sock q).handlers = st.handlers ∧
      (onSocketConnectionTS cfg ft st sock q).events = st.events ∧
      (socketAt (onSocketConnectionTS cfg ft st sock q) sock).sent =
        (socketAt st sock).sent ++ [Frame.errorF Errors.INVALID_WS_PARAMETERS] ∧
      (socketAt (onSocketConnectionTS cfg ft st sock q) sock).closed = true) ∧
    ((falsy q.id || falsy q.token || falsy q.key) = false →
      q.key.getD "" ≠ cfg.key →
      (onSocketConnectionTS cfg ft st sock q).registry = st.registry ∧
      (onSocketConnectionTS cfg ft st sock q).clients = st.clients ∧
      (onSocketConnectionTS cfg ft st sock q).queues = st.queues ∧
      (onSocketConnectionTS cfg ft st sock q).handlers = st.handlers ∧
      (onSocketConnectionTS cfg ft st sock q).events = st.events ∧
      (socketAt (onSocketConnectionTS cfg ft st sock q) sock).sent =
        (socketAt st sock).sent ++ [Frame.errorF Errors.INVALID_KEY] ∧
      (socketAt (onSocketConnectionTS cfg ft st sock q) sock).closed = true) := by
  refine ⟨fun h => ?_, fun h1 h2 => ?_⟩
  · have he : onSocketConnectionTS cfg ft st sock q =
        sendErrorAndClose st sock .INVALID_WS_PARAMETERS := by
      unfold onSocketConnectionTS
      simp [h]
    rw [he, socketAt_sendErrorAndClose_self _ _ _ hs]
    exact ⟨rfl, rfl, rfl, rfl, rfl, rfl, rfl⟩
  · have he : onSocketConnectionTS cfg ft st sock q =
        sendErrorAndClose st sock .INVALID_KEY := by
      unfold onSocketConnectionTS
      simp [h1, h2]
    rw [he, socketAt_sendErrorAndClose_self _ _ _ hs]
    exact ⟨rfl, rfl, rfl, rfl, rfl, rfl, rfl⟩

/-- A sample state holding one fresh socket and nothing else. -/
def oneSock : ServerState := ⟨[], [], [], [], [⟨[], false, false⟩], []⟩

theorem gate_invalid_params_and_key_witness :
    (socketAt (onSocketConnectionTS ⟨"k", 5⟩ "f" oneSock 0 ⟨some "A", none, some "k"⟩) 0).closed
        = true ∧
    (socketAt (onSocketConnectionTS ⟨"k", 5⟩ "f" oneSock 0 ⟨some "A", some "t", some "bad"⟩) 0).sent
        = [Frame.errorF Errors.INVALID_KEY] := by
  constructor
  · exact ((gate_invalid_params_and_key ⟨"k", 5⟩ "f" oneSock 0 ⟨some "A", none, some "k"⟩
      (by decide)).1 (by decide)).2.2.2.2.2.2
  · have h := ((gate_invalid_params_and_key ⟨"k", 5⟩ "f" oneSock 0 ⟨some "A", some "t", some "bad"⟩
      (by decide)).2 (by decide) (by decide)).2.2.2.2.2.1
    simpa [socketAt, oneSock] using h

/-- C4: a valid-gate attempt for an identifier with an existing session,
presenting a token that is neither the stored token nor the reconnect
sentinel, gets the IdTaken frame `{type:"ID_TAKEN",payload:{msg:"ID is
taken"}}` on the new socket, the new socket is closed, and the
registry, the client objects (hence the existing session and its bound
transport reference), the queues, the handlers, the event log and every
other socket are left unchanged. -/
theorem reject_id_taken (cfg : Config) (ft : String) (st : ServerState) (sock c : Nat)
    (i t : String) (hi : i ≠ "") (ht : t ≠ "") (hk : cfg.key ≠ "")
    (hc : getClientById st i = some c)
    (hts : t ≠ "__RECONNECT__")
    (htok : t ≠ (clientAt st c).token)
    (hs : sock < st.sockets.length) :
    (socketAt (onSocketConnectionTS cfg ft st sock ⟨some i, some t, some cfg.key⟩) sock).sent
        = (socketAt st sock).sent ++ [Frame.idTakenF] ∧
    (socketAt (onSocketConnectionTS cfg ft st sock ⟨some i, some t, some cfg.key⟩) sock).closed
        = true ∧
    Frame.idTakenF.typeString = "ID_TAKEN" ∧
    Frame.idTakenF.payloadMsg = some "ID is taken" ∧
    (onSocketConnectionTS cfg ft st sock ⟨some i, some t, some cfg.key⟩).registry = st.registry ∧
    (onSocketConnectionTS cfg ft st sock ⟨some i, some t, some cfg.key⟩).clients = st.clients ∧
    (onSocketConnectionTS cfg ft st sock ⟨some i, some t, some cfg.key⟩).queues = st.queues ∧
    (onSocketConnectionTS cfg ft st sock ⟨some i, some t, some cfg.key⟩).handlers = st.handlers ∧
    (onSocketConnectionTS cfg ft st sock ⟨some i, some t, some cfg.key⟩).events = st.events ∧
    (∀ s, s ≠ sock →
      socketAt (onSocketConnectionTS cfg ft st sock ⟨some i, some t, some cfg.key⟩) s
        = socketAt st s) := by
  have he : onSocketConnectionTS cfg ft st sock ⟨some i, some t, some cfg.key⟩
      = (closeSocket (sendFrame st sock .idTakenF) sock).1 := by
    unfold onSocketConnectionTS
    simp [falsy, hi, ht, hk, hc, hts, htok]
  have hlen : sock < (sendFrame st sock .idTakenF).sockets.length := by
    simp [sendFrame, hs]
  rw [he]
  refine ⟨?_, ?_, rfl, rfl, rfl, rfl, rfl, rfl, rfl, ?_⟩
  · rw [socketAt_closeSocket_self _ _ hlen, socketAt_sendFrame_self _ _ _ hs]
  · rw [socketAt_closeSocket_self _ _ hlen]
  · intro s hne
    rw [socketAt_closeSocket_ne _ _ _ (fun h => hne h.symm),
      socketAt_sendFrame_ne _ _ _ _ (fun h => hne h.symm)]

/-- A sample state with one registered session `"A"` (token `"t1"`,
bound to socket 0) and a second fresh socket. -/
def stA : ServerState :=
  ⟨[⟨"A", "t1", some 0⟩], [("A", 0)], [("A", [⟨none, "pending"⟩])], [(0, 0)],
   [⟨[Frame.openF], false, false⟩, ⟨[], false, false⟩], [Event.connectionReady 0]⟩

theorem reject_id_taken_witness :
    (socketAt (onSocketConnectionTS ⟨"k", 5⟩ "f" stA 1 ⟨some "A", some "t2", some "k"⟩) 1).sent
        = [Frame.idTakenF] ∧
    (onSocketConnectionTS ⟨"k", 5⟩ "f" stA 1 ⟨some "A", some "t2", some "k"⟩).registry
        = stA.registry ∧
    socketAt (onSocketConnectionTS ⟨"k", 5⟩ "f" stA 1 ⟨some "A", some "t2", some "k"⟩) 0
        = socketAt stA 0 := by
  have h := reject_id_taken ⟨"k", 5⟩ "f" stA 1 0 "A" "t2" (by decide) (by decide) (by decide)
    (by decide) (by decide) (by decide) (by decide)
  refine ⟨?_, h.2.2.2.2.1, h.2.2.2.2.2.2.2.2.2 0 (by decide)⟩
  have h1 := h.1
  simpa [socketAt, stA] using h1

@[simp] theorem configureWS_registry (st : ServerState) (s c : Nat) : (configureWS st s c).registry = st.registry := rfl
@[simp] theorem configureWS_queues (st : ServerState) (s c : Nat) : (configureWS st s c).queues = st.queues := rfl
@[simp] theorem configureWS_sockets (st : ServerState) (s c : Nat) : (configureWS st s c).sockets = st.sockets := rfl
@[simp] theorem configureWS_events (st : ServerState) (s c : Nat) : (configureWS st s c).events = st.events ++ [Event.connectionReady c] := rfl
@[simp] theorem configureWS_handlers (st : ServerState) (s c : Nat) : (configureWS st s c).handlers = st.handlers ++ [(s, c)] := rfl
theorem configureWS_clients (st : ServerState) (s c : Nat) :
    (configureWS st s c).clients = modifyIdx st.clients c (fun cd => { cd with socket := some s }) := rfl

theorem clientAt_configureWS_self (st : ServerState) (s c : Nat) (hc : c < st.clients.length) :
    clientAt (configureWS st s c) c = { clientAt st c with socket := some s } := by
  simp only [configureWS_clients, clientAt]
  rw [getD_modifyIdx_self _ _ _ _ hc]

theorem clientAt_configureWS_ne (st : ServerState) (s c c' : Nat) (h : c ≠ c') :
    clientAt (configureWS st s c) c' = clientAt st c' := by
  simp only [configureWS_clients, clientAt]
  rw [getD_modifyIdx_of_ne _ _ _ _ _ h]

/-- C3: a valid-gate attempt for an identifier with an existing session,
presenting exactly the stored token, creates no new session object
(client store keeps its length and every other client object), rebinds
the existing session object to the new socket, sends nothing on any
socket (in particular no Open frame), leaves registry and queues
untouched, attaches the handlers for the new socket, and emits
`connection` carrying the existing session. -/
theorem rebind_existing_session (cfg : Config) (ft : String) (st : ServerState) (sock c : Nat)
    (i t : String) (hi : i ≠ "") (ht : t ≠ "") (hk : cfg.key ≠ "")
    (hc : getClientById st i = some c)
    (hts : t ≠ "__RECONNECT__")
    (htok : t = (clientAt st c).token)
    (hcl : c < st.clients.length) :
    (onSocketConnectionTS cfg ft st sock ⟨some i, some t, some cfg.key⟩).clients.length
        = st.clients.length ∧
    clientAt (onSocketConnectionTS cfg ft st sock ⟨some i, some t, some cfg.key⟩) c
        = { clientAt st c with socket := some sock } ∧
    (∀ c', c' ≠ c →
      clientAt (onSocketConnectionTS cfg ft st sock ⟨some i, some t, some cfg.key⟩) c'
        = clientAt st c') ∧
    (onSocketConnectionTS cfg ft st sock ⟨some i, some t, some cfg.key⟩).sockets = st.sockets ∧
    (onSocketConnectionTS cfg ft st sock ⟨some i, some t, some cfg.key⟩).registry = st.registry ∧
    (onSocketConnectionTS cfg ft st sock ⟨some i, some t, some cfg.key⟩).queues = st.queues ∧
    (onSocketConnectionTS cfg ft st sock ⟨some i, some t, some cfg.key⟩).handlers
        = st.handlers ++ [(sock, c)] ∧
    (onSocketConnectionTS cfg ft st sock ⟨some i, some t, some cfg.key⟩).events
        = st.events ++ [Event.connectionReady c] := by
  have he : onSocketConnectionTS cfg ft st sock ⟨some i, some t, some cfg.key⟩
      = configureWS st sock c := by
    unfold onSocketConnectionTS
    simp [falsy, hi, ht, hk, hc, hts]
    exact fun hcon => absurd htok hcon
  rw [he]
  refine ⟨by simp [configureWS_clients], clientAt_configureWS_self _ _ _ hcl,
    fun c' h => clientAt_configureWS_ne _ _ _ _ (fun hh => h hh.symm), rfl, rfl, rfl, rfl, rfl⟩

theorem rebind_existing_session_witness :
    clientAt (onSocketConnectionTS ⟨"k", 5⟩ "f" stA 1 ⟨some "A", some "t1", some "k"⟩) 0
        = ⟨"A", "t1", some 1⟩ ∧
    (onSocketConnectionTS ⟨"k", 5⟩ "f" stA 1 ⟨some "A", some "t1", some "k"⟩).sockets
        = stA.sockets ∧
    (onSocketConnectionTS ⟨"k", 5⟩ "f" stA 1 ⟨some "A", some "t1", some "k"⟩).events
        = stA.events ++ [Event.connectionReady 0] := by
  have h := rebind_existing_session ⟨"k", 5⟩ "f" stA 1 0 "A" "t1" (by decide) (by decide)
    (by decide) (by decide) (by decide) (by decide) (by decide)
  refine ⟨?_, h.2.2.2.1, h.2.2.2.2.2.2.2⟩
  have h1 := h.2.1
  simpa [clientAt, stA] using h1

@[simp] theorem setClient_clients (st : ServerState) (id : String) (c : Nat) : (setClient st id c).clients = st.clients := rfl
@[simp] theorem setClient_registry (st : ServerState) (id : String) (c : Nat) : (setClient st id c).registry = (id, c) :: st.registry := rfl
@[simp] theorem setClient_queues (st : ServerState) (id : String) (c : Nat) : (setClient st id c).queues = st.queues := rfl
@[simp] theorem setClient_handlers (st : ServerState) (id : String) (c : Nat) : (setClient st id c).handlers = st.handlers := rfl
@[simp] theorem setClient_sockets (st : ServerState) (id : String) (c : Nat) : (setClient st id c).sockets = st.sockets := rfl
@[simp] theorem setClient_events (st : ServerState) (id : String) (c : Nat) : (setClient st id c).events = st.events := rfl

/-- C6: a registration attempt at or above the configured ceiling fails
with CONNECTION_LIMIT_EXCEED (error frame sent, socket closed) and
creates no session (clients, registry, queues, handlers and events all
unchanged); below the ceiling it appends a fresh client object with the
given identifier and token, inserts it into the registry, sends the
Open frame `{type:"OPEN"}` on the socket (which stays open), attaches
the handlers and emits `connection` for the new session. -/
theorem register_limit_and_success (cfg : Config) (st : ServerState) (s : Nat)
    (id token : String) (hs : s < st.sockets.length) :
    (cfg.concurrent_limit ≤ clientsCount st →
      (registerClient cfg st s id token).clients = st.clients ∧
      (registerClient cfg st s id token).registry = st.registry ∧
      (registerClient cfg st s id token).queues = st.queues ∧
      (registerClient cfg st s id token).handlers = st.handlers ∧
      (registerClient cfg st s id token).events = st.events ∧
      (socketAt (registerClient cfg st s id token) s).sent
          = (socketAt st s).sent ++ [Frame.errorF Errors.CONNECTION_LIMIT_EXCEED] ∧
      (socketAt (registerClient cfg st s id token) s).closed = true) ∧
    (clientsCount st < cfg.concurrent_limit →
      (registerClient cfg st s id token).clients = st.clients ++ [⟨id, token, some s⟩] ∧
      (registerClient cfg st s id token).registry = (id, st.clients.length) :: st.registry ∧
      (registerClient cfg st s id token).queues = st.queues ∧
      (registerClient cfg st s id token).handlers = st.handlers ++ [(s, st.clients.length)] ∧
      (registerClient cfg st s id token).events
          = st.events ++ [Event.connectionReady st.clients.length] ∧
      (socketAt (registerClient cfg st s id token) s).sent
          = (socketAt st s).sent ++ [Frame.openF] ∧
      (socketAt (registerClient cfg st s id token) s).closed = (socketAt st s).closed ∧
      Frame.openF.typeString = "OPEN") := by
  constructor
  · intro h
    have he : registerClient cfg st s id token
        = sendErrorAndClose st s .CONNECTION_LIMIT_EXCEED := by
      unfold registerClient
      rw [if_pos h]
    rw [he, socketAt_sendErrorAndClose_self _ _ _ hs]
    exact ⟨rfl, rfl, rfl, rfl, rfl, rfl, rfl⟩
  · intro h
    have he : registerClient cfg st s id token
        = configureWS
            (sendFrame (setClient { st with clients := st.clients ++ [⟨id, token, none⟩] }
              id st.clients.length) s .openF)
            s st.clients.length := by
      unfold registerClient
      rw [if_neg (not_le.mpr h)]
    rw [he]
    have hsock : socketAt (sendFrame (setClient
        { st with clients := st.clients ++ [⟨id, token, none⟩] } id st.clients.length) s .openF) s
        = { socketAt st s with sent := (socketAt st s).sent ++ [Frame.openF] } := by
      rw [socketAt_sendFrame_self _ _ _ (by simpa using hs)]
      rfl
    refine ⟨?_, rfl, rfl, rfl, rfl, ?_, ?_, rfl⟩
    · rw [configureWS_clients]
      simp only [sendFrame_clients, setClient_clients]
      exact modifyIdx_append_length _ _ _
    · rw [show socketAt (configureWS (sendFrame (setClient
        { st with clients := st.clients ++ [⟨id, token, none⟩] } id st.clients.length) s .openF)
        s st.clients.length) s = socketAt (sendFrame (setClient
        { st with clients := st.clients ++ [⟨id, token, none⟩] } id st.clients.length) s .openF) s
        from rfl, hsock]
    · rw [show socketAt (configureWS (sendFrame (setClient
        { st with clients := st.clients ++ [⟨id, token, none⟩] } id st.clients.length) s .openF)
        s st.clients.length) s = socketAt (sendFrame (setClient
        { st with clients := st.clients ++ [⟨id, token, none⟩] } id st.clients.length) s .openF) s
        from rfl, hsock]

theorem register_limit_and_success_witness :
    ((registerClient ⟨"k", 0⟩ oneSock 0 "A" "t1").registry = oneSock.registry ∧
      (socketAt (registerClient ⟨"k", 0⟩ oneSock 0 "A" "t1") 0).closed = true) ∧
    ((registerClient ⟨"k", 5⟩ oneSock 0 "A" "t1").clients = [⟨"A", "t1", some 0⟩] ∧
      (registerClient ⟨"k", 5⟩ oneSock 0 "A" "t1").registry = [("A", 0)] ∧
      (socketAt (registerClient ⟨"k", 5⟩ oneSock 0 "A" "t1") 0).sent = [Frame.openF]) := by
  constructor
  · have h := (register_limit_and_success ⟨"k", 0⟩ oneSock 0 "A" "t1" (by decide)).1
      (by decide)
    exact ⟨h.2.1, h.2.2.2.2.2.2⟩
  · have h := (register_limit_and_success ⟨"k", 5⟩ oneSock 0 "A" "t1" (by decide)).2
      (by decide)
    refine ⟨by simpa [oneSock] using h.1, by simpa [oneSock] using h.2.1, ?_⟩
    have h6 := h.2.2.2.2.2.1
    simpa [socketAt, oneSock] using h6

/-- Registry well-formedness: at most one binding per identifier
(pairwise-distinct keys). -/
def RegOk (st : ServerState) : Prop := (st.registry.map Prod.fst).Nodup

theorem not_mem_keys_eraseP (l : List (String × Nat)) (id : String)
    (h : (l.map Prod.fst).Nodup) :
    id ∉ (l.eraseP (fun p => p.1 = id)).map Prod.fst := by
  induction l with
  | nil => simp
  | cons a t ih =>
    rw [List.map_cons] at h
    have h2 := List.nodup_cons.mp h
    rw [List.eraseP_cons]
    by_cases ha : a.1 = id
    · have hd : decide (a.1 = id) = true := decide_eq_true ha
      rw [hd, cond_true]
      rw [ha] at h2
      exact h2.1
    · have hd : decide (a.1 = id) = false := decide_eq_false ha
      rw [hd, cond_false, List.map_cons]
      rw [List.mem_cons]
      push_neg
      exact ⟨fun hh => ha hh.symm, ih h2.2⟩

theorem singleton_handler_msg (st : ServerState) (sock c : Nat) (d : RawData)
    (hh : st.handlers.filter (fun h => h.1 = sock) = [(sock, c)]) :
    onSocketMessageEvent st sock d = runMessageHandler st c d := by
  unfold onSocketMessageEvent
  rw [hh]
  rfl

theorem singleton_handler_close (st : ServerState) (sock c : Nat)
    (hh : st.handlers.filter (fun h => h.1 = sock) = [(sock, c)]) :
    onSocketCloseEvent st sock = runCloseHandler st sock c := by
  unfold onSocketCloseEvent
  rw [hh]
  rfl

/-- C7: delivery of inbound data on a socket whose (single) attached
handler binds it to client `c`: when the data parses, the message is
relayed with its src field overwritten by the bound session's
identifier (whatever src the sender supplied) via a `message` event;
when parsing fails only the non-fatal error event fires.  In both cases
the registry, client objects, sockets (hence the open transport),
queues and handlers are unchanged. -/
theorem message_relay (st : ServerState) (sock c : Nat) (d : RawData)
    (hh : st.handlers.filter (fun h => h.1 = sock) = [(sock, c)]) :
    (∀ m, parseData d = some m →
      (onSocketMessageEvent st sock d).events
          = st.events ++ [Event.messageReceived c { m with src := some (clientAt st c).id }]) ∧
    (parseData d = none →
      (onSocketMessageEvent st sock d).events = st.events ++ [Event.relayError]) ∧
    (onSocketMessageEvent st sock d).registry = st.registry ∧
    (onSocketMessageEvent st sock d).clients = st.clients ∧
    (onSocketMessageEvent st sock d).sockets = st.sockets ∧
    (onSocketMessageEvent st sock d).queues = st.queues ∧
    (onSocketMessageEvent st sock d).handlers = st.handlers := by
  rw [singleton_handler_msg st sock c d hh]
  cases d with
  | malformed =>
    refine ⟨fun m hm => by simp [parseData] at hm, fun _ => ?_, rfl, rfl, rfl, rfl, rfl⟩
    simp [runMessageHandler, parseData]
  | wellFormed m0 =>
    refine ⟨fun m hm => ?_, fun hm => by simp [parseData] at hm, rfl, rfl, rfl, rfl, rfl⟩
    have : m0 = m := by simpa [parseData] using hm
    subst this
    simp [runMessageHandler, parseData]

theorem message_relay_witness :
    (onSocketMessageEvent stA 0 (RawData.wellFormed ⟨some "forged", "foo:1"⟩)).events
        = stA.events ++ [Event.messageReceived 0 ⟨some "A", "foo:1"⟩] ∧
    (onSocketMessageEvent stA 0 RawData.malformed).events
        = stA.events ++ [Event.relayError] ∧
    (onSocketMessageEvent stA 0 RawData.malformed).registry = stA.registry := by
  have h1 := (message_relay stA 0 0 (RawData.wellFormed ⟨some "forged", "foo:1"⟩)
    (by decide)).1 ⟨some "forged", "foo:1"⟩ (by decide)
  have h2 := message_relay stA 0 0 RawData.malformed (by decide)
  exact ⟨by simpa [clientAt, stA] using h1, h2.2.1 (by decide), h2.2.2.1⟩

/-- C8: delivery of a transport close event on a socket whose (single)
attached handler binds it to client `c`: if that socket is still the
client's currently bound one, the client's identifier is removed from
the registry (no binding for it remains, given registry
well-formedness) and exactly one `close` event fires; if the client has
since been rebound to a different socket, the state is completely
unchanged — no removal and no `close` event. -/
theorem close_current_vs_stale (st : ServerState) (sock c : Nat)
    (hh : st.handlers.filter (fun h => h.1 = sock) = [(sock, c)]) :
    ((clientAt st c).socket = some sock →
      (onSocketCloseEvent st sock).registry
          = st.registry.eraseP (fun p => p.1 = (clientAt st c).id) ∧
      (RegOk st → getClientById (onSocketCloseEvent st sock) (clientAt st c).id = none) ∧
      (onSocketCloseEvent st sock).events = st.events ++ [Event.sessionClosed c] ∧
      (onSocketCloseEvent st sock).clients = st.clients ∧
      (onSocketCloseEvent st sock).sockets = st.sockets ∧
      (onSocketCloseEvent st sock).queues = st.queues ∧
      (onSocketCloseEvent st sock).handlers = st.handlers) ∧
    ((clientAt st c).socket ≠ some sock →
      onSocketCloseEvent st sock = st) := by
  rw [singleton_handler_close st sock c hh]
  constructor
  · intro hcur
    have he : runCloseHandler st sock c
        = emit (removeClientById st (clientAt st c).id) (.sessionClosed c) := by
      unfold runCloseHandler
      rw [if_pos hcur]
    rw [he]
    refine ⟨rfl, fun hreg => ?_, rfl, rfl, rfl, rfl, rfl⟩
    have hmem := not_mem_keys_eraseP st.registry (clientAt st c).id hreg
    have hf : List.find? (fun p => p.1 = (clientAt st c).id)
        (st.registry.eraseP (fun p => p.1 = (clientAt st c).id)) = none := by
      rw [List.find?_eq_none]
      intro p hp
      simp only [decide_eq_true_eq]
      intro hcon
      exact hmem (List.mem_map.mpr ⟨p, hp, hcon⟩)
    unfold getClientById
    simp only [emit_registry]
    rw [removeClientById_registry, hf]
    rfl
  · intro hcur
    unfold runCloseHandler
    rw [if_neg hcur]

theorem close_current_vs_stale_witness :
    (onSocketCloseEvent stA 0).registry = [] ∧
    (onSocketCloseEvent stA 0).events = stA.events ++ [Event.sessionClosed 0] ∧
    onSocketCloseEvent
        ({ stA with clients := [⟨"A", "t1", some 1⟩],
                    handlers := [(0, 0)] } : ServerState) 0
      = { stA with clients := [⟨"A", "t1", some 1⟩], handlers := [(0, 0)] } := by
  have h := (close_current_vs_stale stA 0 0 (by decide)).1 (by decide)
  refine ⟨?_, h.2.2.1, ?_⟩
  · have h1 := h.1
    simpa [clientAt, stA] using h1
  · exact (close_current_vs_stale _ 0 0 (by decide)).2 (by decide)

theorem getD_append_left {α : Type} (l l2 : List α) (i : Nat) (d : α) (h : i < l.length) :
    (l ++ l2).getD i d = l.getD i d := by
  simp [List.getD_eq_getElem?_getD, List.getElem?_append_left h]

theorem getD_append_length {α : Type} (l : List α) (a : α) (d : α) :
    (l ++ [a]).getD l.length d = a := by
  simp [List.getD_eq_getElem?_getD]

theorem find?_filter_ne (l : List (String × List Msg)) (i : String) :
    (l.filter (fun p => p.1 ≠ i)).find? (fun p => p.1 = i) = none := by
  rw [List.find?_eq_none]
  intro p hp
  have h2 := (List.mem_filter.mp hp).2
  simpa using h2

theorem find?_eraseP_self_eq_none (l : List (String × Nat)) (i : String)
    (h : (l.map Prod.fst).Nodup) :
    (l.eraseP (fun p => p.1 = i)).find? (fun p => p.1 = i) = none := by
  rw [List.find?_eq_none]
  intro p hp
  simp only [decide_eq_true_eq]
  intro hcon
  exact not_mem_keys_eraseP l i h (List.mem_map.mpr ⟨p, hp, hcon⟩)

theorem mem_registry_of_getClientById (st : ServerState) (i : String) (c : Nat)
    (hc : getClientById st i = some c) : (i, c) ∈ st.registry := by
  unfold getClientById at hc
  rcases Option.map_eq_some'.mp hc with ⟨pr, hfind, hsnd⟩
  have hfst : pr.1 = i := by simpa using List.find?_some hfind
  have hmem := List.mem_of_find?_eq_some hfind
  have : pr = (i, c) := by
    cases pr
    simp only at hfst hsnd
    rw [hfst, hsnd]
  rw [this] at hmem
  exact hmem

theorem clearMessageQueue_queues (st : ServerState) (id : String) :
    (clearMessageQueue st id).queues = st.queues.filter (fun p => p.1 ≠ id) := rfl

theorem evict_fst_queues (st : ServerState) (i : String) (c : Nat) :
    (evict st i c).1.queues = st.queues.filter (fun p => p.1 ≠ i) := by
  unfold evict
  cases hso : (clientAt st c).socket <;>
    simp [hso, clearMessageQueue_queues]

theorem evict_fst_registry (st : ServerState) (i : String) (c : Nat) :
    (evict st i c).1.registry = st.registry.eraseP (fun p => p.1 = i) := by
  unfold evict
  cases hso : (clientAt st c).socket <;>
    simp [hso, removeClientById_registry]

theorem evict_fst_clients (st : ServerState) (i : String) (c : Nat) :
    (evict st i c).1.clients = modifyIdx st.clients c (fun cd => { cd with socket := none }) := by
  unfold evict
  cases hso : (clientAt st c).socket <;>
    simp [hso, setClientSocket]

theorem evict_fst_events (st : ServerState) (i : String) (c : Nat) :
    (evict st i c).1.events = st.events ++ [Event.evicted c] := by
  unfold evict
  cases hso : (clientAt st c).socket <;> simp [hso]

theorem evict_fst_handlers (st : ServerState) (i : String) (c : Nat) :
    (evict st i c).1.handlers = st.handlers := by
  unfold evict
  cases hso : (clientAt st c).socket <;> simp [hso]

theorem evict_fst_sockets_none (st : ServerState) (i : String) (c : Nat)
    (hso : (clientAt st c).socket = none) : (evict st i c).1.sockets = st.sockets := by
  unfold evict
  rw [hso]
  rfl

theorem evict_fst_sockets_some (st : ServerState) (i : String) (c old : Nat)
    (hso : (clientAt st c).socket = some old) :
    (evict st i c).1.sockets = modifyIdx st.sockets old (fun x => { x with closed := true }) := by
  unfold evict
  rw [hso]
  rfl

theorem evict_snd_none (st : ServerState) (i : String) (c : Nat)
    (hso : (clientAt st c).socket = none) : (evict st i c).2 = false := by
  unfold evict
  rw [hso]

theorem evict_snd_some (st : ServerState) (i : String) (c old : Nat)
    (hso : (clientAt st c).socket = some old) :
    (evict st i c).2 = (socketAt st old).closeRaises := by
  unfold evict
  rw [hso]
  rfl

/-- The whole reconnect branch of `_onSocketConnection`, abstracted
over the token handed to `_registerClient` (the TS variant passes the
regenerated `freshTok`, the JS variant the presented token).  When the
old transport's close raised, the exception propagates after the
`finally` block and registration is skipped. -/
def evictThenRegister (cfg : Config) (st : ServerState) (sock : Nat) (i tok : String)
    (c : Nat) : ServerState :=
  if (evict st i c).2 then (evict st i c).1
  else registerClient cfg (evict st i c).1 sock i tok

theorem ts_reconnect_reduce (cfg : Config) (ft : String) (st : ServerState) (sock c : Nat)
    (i : String) (hi : i ≠ "") (hk : cfg.key ≠ "")
    (hc : getClientById st i = some c) :
    onSocketConnectionTS cfg ft st sock ⟨some i, some "__RECONNECT__", some cfg.key⟩
      = evictThenRegister cfg st sock i ft c := by
  have hsl : ¬("__RECONNECT__" : String) = "" := by decide
  unfold onSocketConnectionTS evictThenRegister
  simp [falsy, hi, hk, hc, hsl]

theorem js_reconnect_reduce (cfg : Config) (st : ServerState) (sock c : Nat)
    (i : String) (hi : i ≠ "") (hk : cfg.key ≠ "")
    (hc : getClientById st i = some c) :
    onSocketConnectionJS cfg st sock ⟨some i, some "__RECONNECT__", some cfg.key⟩
      = evictThenRegister cfg st sock i "__RECONNECT__" c := by
  have hsl : ¬("__RECONNECT__" : String) = "" := by decide
  unfold onSocketConnectionJS evictThenRegister
  simp [falsy, hi, hk, hc, hsl]

theorem evictThenRegister_effects (cfg : Config) (st : ServerState) (sock c : Nat)
    (i tok : String)
    (hc : getClientById st i = some c) (hcl : c < st.clients.length) (hreg : RegOk st) :
    queueOf (evictThenRegister cfg st sock i tok c) i = [] ∧
    (i, c) ∉ (evictThenRegister cfg st sock i tok c).registry ∧
    clientAt (evictThenRegister cfg st sock i tok c) c
        = { clientAt st c with socket := none } ∧
    (evictThenRegister cfg st sock i tok c).events.count (Event.evicted c)
        = st.events.count (Event.evicted c) + 1 ∧
    (∀ old, (clientAt st c).socket = some old → old ≠ sock → old < st.sockets.length →
      (socketAt (evictThenRegister cfg st sock i tok c) old).closed = true) ∧
    ((evict st i c).2 = false → st.registry.length ≤ cfg.concurrent_limit →
      (evictThenRegister cfg st sock i tok c).clients
          = modifyIdx st.clients c (fun cd => { cd with socket := none })
            ++ [⟨i, tok, some sock⟩] ∧
      clientAt (evictThenRegister cfg st sock i tok c) st.clients.length
          = ⟨i, tok, some sock⟩ ∧
      (evictThenRegister cfg st sock i tok c).registry
          = (i, st.clients.length) :: st.registry.eraseP (fun p => p.1 = i) ∧
      (evictThenRegister cfg st sock i tok c).events
          = st.events ++ [Event.evicted c, Event.connectionReady st.clients.length]) ∧
    ((evict st i c).2 = true →
      (evictThenRegister cfg st sock i tok c).clients.length = st.clients.length ∧
      getClientById (evictThenRegister cfg st sock i tok c) i = none ∧
      (evictThenRegister cfg st sock i tok c).events = st.events ++ [Event.evicted c]) := by
  have hmemr := mem_registry_of_getClientById st i c hc
  have hpos : 0 < st.registry.length := List.length_pos.mpr (List.ne_nil_of_mem hmemr)
  have hlenr : ((evict st i c).1).registry.length = st.registry.length - 1 := by
    rw [evict_fst_registry]
    exact List.length_eraseP_of_mem hmemr (by simp)
  have hlen1 : (evict st i c).1.clients.length = st.clients.length := by
    rw [evict_fst_clients]
    simp
  cases hr : (evict st i c).2 with
  | true =>
    have hE : evictThenRegister cfg st sock i tok c = (evict st i c).1 := by
      simp [evictThenRegister, hr]
    refine ⟨?_, ?_, ?_, ?_, ?_, ?_, ?_⟩
    · rw [hE]
      unfold queueOf
      rw [evict_fst_queues, find?_filter_ne]
      rfl
    · rw [hE, evict_fst_registry]
      intro hmem
      exact not_mem_keys_eraseP _ _ hreg (List.mem_map.mpr ⟨(i, c), hmem, rfl⟩)
    · rw [hE]
      unfold clientAt
      rw [evict_fst_clients, getD_modifyIdx_self _ _ _ _ hcl]
    · rw [hE, evict_fst_events]
      simp [List.count_append]
    · intro old hold hne holdlen
      rw [hE]
      unfold socketAt
      rw [evict_fst_sockets_some st i c old hold, getD_modifyIdx_self _ _ _ _ holdlen]
    · intro h6 _
      exact absurd h6 (by decide)
    · intro _
      refine ⟨?_, ?_, ?_⟩
      · rw [hE, evict_fst_clients]
        simp
      · rw [hE]
        unfold getClientById
        rw [evict_fst_registry, find?_eraseP_self_eq_none _ _ hreg]
        rfl
      · rw [hE, evict_fst_events]
  | false =>
    have hE : evictThenRegister cfg st sock i tok c
        = registerClient cfg (evict st i c).1 sock i tok := by
      simp [evictThenRegister, hr]
    by_cases hl : cfg.concurrent_limit ≤ clientsCount (evict st i c).1
    · have hE2 : evictThenRegister cfg st sock i tok c
          = sendErrorAndClose (evict st i c).1 sock .CONNECTION_LIMIT_EXCEED := by
        rw [hE]
        unfold registerClient
        rw [if_pos hl]
      refine ⟨?_, ?_, ?_, ?_, ?_, ?_, ?_⟩
      · rw [hE2]
        unfold queueOf
        rw [sendErrorAndClose_queues, evict_fst_queues, find?_filter_ne]
        rfl
      · rw [hE2, sendErrorAndClose_registry, evict_fst_registry]
        intro hmem
        exact not_mem_keys_eraseP _ _ hreg (List.mem_map.mpr ⟨(i, c), hmem, rfl⟩)
      · rw [hE2]
        unfold clientAt
        rw [sendErrorAndClose_clients, evict_fst_clients, getD_modifyIdx_self _ _ _ _ hcl]
      · rw [hE2, sendErrorAndClose_events, evict_fst_events]
        simp [List.count_append]
      · intro old hold hne holdlen
        rw [hE2, socketAt_sendErrorAndClose_ne _ _ _ _ (fun h => hne h.symm)]
        unfold socketAt
        rw [evict_fst_sockets_some st i c old hold, getD_modifyIdx_self _ _ _ _ holdlen]
      · intro _ hlim
        unfold clientsCount at hl
        rw [hlenr] at hl
        exact absurd hl (not_le.mpr (lt_of_lt_of_le (Nat.sub_lt hpos one_pos) hlim))
      · intro h7
        exact absurd h7 (by decide)
    · have hE2 : evictThenRegister cfg st sock i tok c
          = configureWS
              (sendFrame (setClient { (evict st i c).1 with
                  clients := (evict st i c).1.clients ++ [⟨i, tok, none⟩] }
                i (evict st i c).1.clients.length) sock .openF)
              sock (evict st i c).1.clients.length := by
        rw [hE]
        unfold registerClient
        rw [if_neg hl]
      have hclients : (evictThenRegister cfg st sock i tok c).clients
          = modifyIdx st.clients c (fun cd => { cd with socket := none })
            ++ [⟨i, tok, some sock⟩] := by
        rw [hE2, configureWS_clients]
        simp only [sendFrame_clients, setClient_clients]
        rw [modifyIdx_append_length, evict_fst_clients]
      have hregy : (evictThenRegister cfg st sock i tok c).registry
          = (i, st.clients.length) :: st.registry.eraseP (fun p => p.1 = i) := by
        rw [hE2, configureWS_registry]
        simp only [sendFrame_registry, setClient_registry]
        rw [evict_fst_registry, hlen1]
      have hevents : (evictThenRegister cfg st sock i tok c).events
          = st.events ++ [Event.evicted c, Event.connectionReady st.clients.length] := by
        rw [hE2, configureWS_events]
        simp only [sendFrame_events, setClient_events]
        rw [evict_fst_events, hlen1, List.append_assoc]
        rfl
      refine ⟨?_, ?_, ?_, ?_, ?_, ?_, ?_⟩
      · rw [hE2]
        unfold queueOf
        rw [configureWS_queues, sendFrame_queues, setClient_queues, evict_fst_queues,
          find?_filter_ne]
        rfl
      · rw [hregy]
        intro hmem
        rcases List.mem_cons.mp hmem with heq | htail
        · have : c = st.clients.length := congrArg Prod.snd heq
          rw [this] at hcl
          exact absurd hcl (lt_irrefl _)
        · exact not_mem_keys_eraseP _ _ hreg (List.mem_map.mpr ⟨(i, c), htail, rfl⟩)
      · unfold clientAt
        rw [hclients, getD_append_left _ _ _ _ (by simpa using hcl),
          getD_modifyIdx_self _ _ _ _ hcl]
      · rw [hevents]
        simp [List.count_append]
      · intro old hold hne holdlen
        rw [hE2]
        have h1 : socketAt (configureWS
            (sendFrame (setClient { (evict st i c).1 with
                clients := (evict st i c).1.clients ++ [⟨i, tok, none⟩] }
              i (evict st i c).1.clients.length) sock .openF)
            sock (evict st i c).1.clients.length) old
            = socketAt (sendFrame (setClient { (evict st i c).1 with
                clients := (evict st i c).1.clients ++ [⟨i, tok, none⟩] }
              i (evict st i c).1.clients.length) sock .openF) old := rfl
        rw [h1, socketAt_sendFrame_ne _ _ _ _ (fun h => hne h.symm)]
        unfold socketAt
        simp only [setClient_sockets]
        rw [show ({ (evict st i c).1 with
            clients := (evict st i c).1.clients ++ [⟨i, tok, none⟩] } : ServerState).sockets
            = (evict st i c).1.sockets from rfl]
        rw [evict_fst_sockets_some st i c old hold, getD_modifyIdx_self _ _ _ _ holdlen]
      · intro _ _
        refine ⟨hclients, ?_, hregy, hevents⟩
        unfold clientAt
        rw [hclients]
        rw [show st.clients.length
            = (modifyIdx st.clients c fun cd => { cd with socket := none }).length by simp]
        exact getD_append_length _ _ _
      · intro h7
        exact absurd h7 (by decide)

/-- C1 (amended): for a valid-gate reconnect-sentinel attempt on an
identifier with an existing session, the four eviction effects are
guaranteed in both variants even when closing the old transport raises:
the pending queue for the identifier is cleared, the old session's
registry binding is gone, its transport reference is nulled, the
`onClose` callback fires exactly once, and the old transport is closed.
A new session is then registered under the same identifier and
`connection` fires for it provided the old transport's close did not
raise (the exception otherwise propagates out of the handler after the
`finally` block, skipping registration) and the registry is within the
ceiling; the TS variant stores the regenerated token, the JS variant
the presented sentinel. -/
theorem reconnect_eviction_guaranteed_cleanup (cfg : Config) (ft : String)
    (st : ServerState) (sock c : Nat) (i : String)
    (hi : i ≠ "") (hk : cfg.key ≠ "")
    (hc : getClientById st i = some c) (hcl : c < st.clients.length) (hreg : RegOk st) :
    (queueOf (onSocketConnectionTS cfg ft st sock
        ⟨some i, some "__RECONNECT__", some cfg.key⟩) i = [] ∧
      (i, c) ∉ (onSocketConnectionTS cfg ft st sock
        ⟨some i, some "__RECONNECT__", some cfg.key⟩).registry ∧
      clientAt (onSocketConnectionTS cfg ft st sock
        ⟨some i, some "__RECONNECT__", some cfg.key⟩) c
          = { clientAt st c with socket := none } ∧
      (onSocketConnectionTS cfg ft st sock
        ⟨some i, some "__RECONNECT__", some cfg.key⟩).events.count (Event.evicted c)
          = st.events.count (Event.evicted c) + 1 ∧
      (∀ old, (clientAt st c).socket = some old → old ≠ sock → old < st.sockets.length →
        (socketAt (onSocketConnectionTS cfg ft st sock
          ⟨some i, some "__RECONNECT__", some cfg.key⟩) old).closed = true)) ∧
    (queueOf (onSocketConnectionJS cfg st sock
        ⟨some i, some "__RECONNECT__", some cfg.key⟩) i = [] ∧
      (i, c) ∉ (onSocketConnectionJS cfg st sock
        ⟨some i, some "__RECONNECT__", some cfg.key⟩).registry ∧
      clientAt (onSocketConnectionJS cfg st sock
        ⟨some i, some "__RECONNECT__", some cfg.key⟩) c
          = { clientAt st c with socket := none } ∧
      (onSocketConnectionJS cfg st sock
        ⟨some i, some "__RECONNECT__", some cfg.key⟩).events.count (Event.evicted c)
          = st.events.count (Event.evicted c) + 1) ∧
    ((∀ old, (clientAt st c).socket = some old → (socketAt st old).closeRaises = false) →
      st.registry.length ≤ cfg.concurrent_limit →
      (onSocketConnectionTS cfg ft st sock
          ⟨some i, some "__RECONNECT__", some cfg.key⟩).events
        = st.events ++ [Event.evicted c, Event.connectionReady st.clients.length] ∧
      clientAt (onSocketConnectionTS cfg ft st sock
          ⟨some i, some "__RECONNECT__", some cfg.key⟩) st.clients.length
        = ⟨i, ft, some sock⟩ ∧
      (onSocketConnectionTS cfg ft st sock
          ⟨some i, some "__RECONNECT__", some cfg.key⟩).registry
        = (i, st.clients.length) :: st.registry.eraseP (fun p => p.1 = i) ∧
      (onSocketConnectionJS cfg st sock
          ⟨some i, some "__RECONNECT__", some cfg.key⟩).events
        = st.events ++ [Event.evicted c, Event.connectionReady st.clients.length] ∧
      clientAt (onSocketConnectionJS cfg st sock
          ⟨some i, some "__RECONNECT__", some cfg.key⟩) st.clients.length
        = ⟨i, "__RECONNECT__", some sock⟩ ∧
      (onSocketConnectionJS cfg st sock
          ⟨some i, some "__RECONNECT__", some cfg.key⟩).registry
        = (i, st.clients.length) :: st.registry.eraseP (fun p => p.1 = i)) := by
  have hrT := ts_reconnect_reduce cfg ft st sock c i hi hk hc
  have hrJ := js_reconnect_reduce cfg st sock c i hi hk hc
  have mT := evictThenRegister_effects cfg st sock c i ft hc hcl hreg
  have mJ := evictThenRegister_effects cfg st sock c i "__RECONNECT__" hc hcl hreg
  rw [hrT, hrJ]
  refine ⟨⟨mT.1, mT.2.1, mT.2.2.1, mT.2.2.2.1, mT.2.2.2.2.1⟩,
    ⟨mJ.1, mJ.2.1, mJ.2.2.1, mJ.2.2.2.1⟩, fun hnr hlim => ?_⟩
  have hr2 : (evict st i c).2 = false := by
    cases hso : (clientAt st c).socket with
    | none => exact evict_snd_none st i c hso
    | some old =>
      rw [evict_snd_some st i c old hso]
      exact hnr old hso
  have bT := mT.2.2.2.2.2.1 hr2 hlim
  have bJ := mJ.2.2.2.2.2.1 hr2 hlim
  exact ⟨bT.2.2.2, bT.2.1, bT.2.2.1, bJ.2.2.2, bJ.2.1, bJ.2.2.1⟩

/-- C1, counterexample to the claim as stated: with an existing session
`"A"` whose bound transport raises on close, the reconnect-sentinel
attempt performs the four eviction effects but registers no new session
and fires no `connection` event — the registry ends empty, the client
store is unchanged (only the transport reference was nulled) and the
only new event is the eviction callback. -/
theorem reconnect_eviction_counterexample :
    (onSocketConnectionTS ⟨"k", 5⟩ "f"
        ⟨[⟨"A", "t1", some 0⟩], [("A", 0)], [("A", [⟨none, "pending"⟩])], [(0, 0)],
         [⟨[Frame.openF], false, true⟩, ⟨[], false, false⟩], []⟩
        1 ⟨some "A", some "__RECONNECT__", some "k"⟩).registry = [] ∧
    (onSocketConnectionTS ⟨"k", 5⟩ "f"
        ⟨[⟨"A", "t1", some 0⟩], [("A", 0)], [("A", [⟨none, "pending"⟩])], [(0, 0)],
         [⟨[Frame.openF], false, true⟩, ⟨[], false, false⟩], []⟩
        1 ⟨some "A", some "__RECONNECT__", some "k"⟩).clients = [⟨"A", "t1", none⟩] ∧
    (onSocketConnectionTS ⟨"k", 5⟩ "f"
        ⟨[⟨"A", "t1", some 0⟩], [("A", 0)], [("A", [⟨none, "pending"⟩])], [(0, 0)],
         [⟨[Frame.openF], false, true⟩, ⟨[], false, false⟩], []⟩
        1 ⟨some "A", some "__RECONNECT__", some "k"⟩).events = [Event.evicted 0] := by
  decide

theorem reconnect_eviction_guaranteed_cleanup_witness :
    queueOf (onSocketConnectionTS ⟨"k", 5⟩ "f" stA 1
        ⟨some "A", some "__RECONNECT__", some "k"⟩) "A" = [] ∧
    (onSocketConnectionTS ⟨"k", 5⟩ "f" stA 1
        ⟨some "A", some "__RECONNECT__", some "k"⟩).events
      = stA.events ++ [Event.evicted 0, Event.connectionReady 1] ∧
    clientAt (onSocketConnectionTS ⟨"k", 5⟩ "f" stA 1
        ⟨some "A", some "__RECONNECT__", some "k"⟩) 1 = ⟨"A", "f", some 1⟩ ∧
    clientAt (onSocketConnectionJS ⟨"k", 5⟩ stA 1
        ⟨some "A", some "__RECONNECT__", some "k"⟩) 1 = ⟨"A", "__RECONNECT__", some 1⟩ := by
  have h := reconnect_eviction_guaranteed_cleanup ⟨"k", 5⟩ "f" stA 1 0 "A"
    (by decide) (by decide) (by decide) (by decide) (by unfold RegOk; decide)
  have hb := h.2.2 (by decide) (by decide)
  exact ⟨h.1.1, hb.1, hb.2.1, hb.2.2.2.2.1⟩

/-- Forget a client's stored token (used to state that two states agree
except for stored tokens). -/
def scrubToken (cd : ClientData) : ClientData := { cd with token := "" }

theorem evictThenRegister_token_only (cfg : Config) (st : ServerState) (sock c : Nat)
    (i t1 t2 : String) :
    (evictThenRegister cfg st sock i t1 c).registry
        = (evictThenRegister cfg st sock i t2 c).registry ∧
    (evictThenRegister cfg st sock i t1 c).queues
        = (evictThenRegister cfg st sock i t2 c).queues ∧
    (evictThenRegister cfg st sock i t1 c).handlers
        = (evictThenRegister cfg st sock i t2 c).handlers ∧
    (evictThenRegister cfg st sock i t1 c).sockets
        = (evictThenRegister cfg st sock i t2 c).sockets ∧
    (evictThenRegister cfg st sock i t1 c).events
        = (evictThenRegister cfg st sock i t2 c).events ∧
    (evictThenRegister cfg st sock i t1 c).clients.map scrubToken
        = (evictThenRegister cfg st sock i t2 c).clients.map scrubToken := by
  unfold evictThenRegister
  cases hr : (evict st i c).2 with
  | true =>
    simp
  | false =>
    simp only [Bool.false_eq_true, if_false]
    unfold registerClient
    by_cases hl : cfg.concurrent_limit ≤ clientsCount (evict st i c).1
    · rw [if_pos hl, if_pos hl]
      exact ⟨rfl, rfl, rfl, rfl, rfl, rfl⟩
    · rw [if_neg hl, if_neg hl]
      refine ⟨rfl, rfl, rfl, rfl, rfl, ?_⟩
      rw [configureWS_clients, configureWS_clients]
      simp only [sendFrame_clients, setClient_clients]
      rw [modifyIdx_append_length, modifyIdx_append_length]
      simp [scrubToken]

/-- C9: outside the reconnect (evict-and-reregister) path the two
variants compute identical states (the TS variant's drawn fresh token
is unused there); on the reconnect path they agree on registry, queues,
handlers, sockets and events, and their client stores agree once stored
tokens are scrubbed; when the replacement registration completes, the
JS variant stores the presented sentinel token while the TS variant
stores the freshly generated one. -/
theorem variant_equivalence (cfg : Config) (ft : String) (st : ServerState) (sock : Nat)
    (q : Query) :
    (¬((falsy q.id || falsy q.token || falsy q.key) = false ∧ q.key.getD "" = cfg.key ∧
        q.token.getD "" = "__RECONNECT__" ∧ getClientById st (q.id.getD "") ≠ none) →
      onSocketConnectionJS cfg st sock q = onSocketConnectionTS cfg ft st sock q) ∧
    (∀ i c, q = ⟨some i, some "__RECONNECT__", some cfg.key⟩ → i ≠ "" → cfg.key ≠ "" →
      getClientById st i = some c →
      ((onSocketConnectionJS cfg st sock q).registry
          = (onSocketConnectionTS cfg ft st sock q).registry ∧
        (onSocketConnectionJS cfg st sock q).queues
          = (onSocketConnectionTS cfg ft st sock q).queues ∧
        (onSocketConnectionJS cfg st sock q).handlers
          = (onSocketConnectionTS cfg ft st sock q).handlers ∧
        (onSocketConnectionJS cfg st sock q).sockets
          = (onSocketConnectionTS cfg ft st sock q).sockets ∧
        (onSocketConnectionJS cfg st sock q).events
          = (onSocketConnectionTS cfg ft st sock q).events ∧
        (onSocketConnectionJS cfg st sock q).clients.map scrubToken
          = (onSocketConnectionTS cfg ft st sock q).clients.map scrubToken) ∧
      (c < st.clients.length → RegOk st → (evict st i c).2 = false →
        st.registry.length ≤ cfg.concurrent_limit →
        clientAt (onSocketConnectionJS cfg st sock q) st.clients.length
          = ⟨i, "__RECONNECT__", some sock⟩ ∧
        clientAt (onSocketConnectionTS cfg ft st sock q) st.clients.length
          = ⟨i, ft, some sock⟩)) := by
  constructor
  · intro hnot
    unfold onSocketConnectionJS onSocketConnectionTS
    by_cases h1 : (falsy q.id || falsy q.token || falsy q.key) = true
    · rw [if_pos h1, if_pos h1]
    · have h1f : (falsy q.id || falsy q.token || falsy q.key) = false := by
        simpa using h1
      by_cases h2 : q.key.getD "" = cfg.key
      · cases hgc : getClientById st (q.id.getD "") with
        | none => simp [h1, h2, hgc]
        | some c =>
          by_cases h4 : q.token.getD "" = "__RECONNECT__"
          · exact absurd ⟨h1f, h2, h4, by simp [hgc]⟩ hnot
          · simp [h1, h2, hgc, h4]
      · simp [h1, h2]
  · intro i c hq hi hk hc
    subst hq
    rw [ts_reconnect_reduce cfg ft st sock c i hi hk hc,
      js_reconnect_reduce cfg st sock c i hi hk hc]
    have tk := evictThenRegister_token_only cfg st sock c i "__RECONNECT__" ft
    refine ⟨⟨tk.1, tk.2.1, tk.2.2.1, tk.2.2.2.1, tk.2.2.2.2.1, tk.2.2.2.2.2⟩, ?_⟩
    intro hcl hreg hr2 hlim
    have bJ := (evictThenRegister_effects cfg st sock c i "__RECONNECT__"
      hc hcl hreg).2.2.2.2.2.1 hr2 hlim
    have bT := (evictThenRegister_effects cfg st sock c i ft
      hc hcl hreg).2.2.2.2.2.1 hr2 hlim
    exact ⟨bJ.2.1, bT.2.1⟩

theorem variant_equivalence_witness :
    onSocketConnectionJS ⟨"k", 5⟩ stA 1 ⟨some "A", some "t1", some "k"⟩
      = onSocketConnectionTS ⟨"k", 5⟩ "f" stA 1 ⟨some "A", some "t1", some "k"⟩ ∧
    clientAt (onSocketConnectionJS ⟨"k", 5⟩ stA 1
        ⟨some "A", some "__RECONNECT__", some "k"⟩) 1 = ⟨"A", "__RECONNECT__", some 1⟩ ∧
    clientAt (onSocketConnectionTS ⟨"k", 5⟩ "f" stA 1
        ⟨some "A", some "__RECONNECT__", some "k"⟩) 1 = ⟨"A", "f", some 1⟩ := by
  refine ⟨?_, ?_⟩
  · exact (variant_equivalence ⟨"k", 5⟩ "f" stA 1 ⟨some "A", some "t1", some "k"⟩).1
      (by decide)
  · exact ((variant_equivalence ⟨"k", 5⟩ "f" stA 1
      ⟨some "A", some "__RECONNECT__", some "k"⟩).2 "A" 0 rfl (by decide) (by decide)
      (by decide)).2 (by decide) (by unfold RegOk; decide) (by decide) (by decide)

/-- C10: a valid-gate attempt presenting the sentinel token for an
identifier with no existing session registers (in both variants) a
session whose stored token is the literal string `"__RECONNECT__"` —
regeneration only happens after an eviction, and only in the TS
variant.  Consequently a second attempt with the same identifier and
the sentinel token takes the evict-and-replace path, not the rebind
path: it fires the eviction callback for the first session and
registers a brand-new session object (the client store grows again),
even though the presented token equals the stored one. -/
theorem sentinel_registration_then_evict (cfg : Config) (ft ft2 : String)
    (st : ServerState) (sock sock2 : Nat) (i : String)
    (hi : i ≠ "") (hk : cfg.key ≠ "")
    (hnone : getClientById st i = none) (hreg : RegOk st)
    (hlim : st.registry.length < cfg.concurrent_limit)
    (hsock : sock < st.sockets.length)
    (hcr : (socketAt st sock).closeRaises = false) :
    (onSocketConnectionTS cfg ft st sock ⟨some i, some "__RECONNECT__", some cfg.key⟩).clients
        = st.clients ++ [⟨i, "__RECONNECT__", some sock⟩] ∧
    (onSocketConnectionTS cfg ft st sock ⟨some i, some "__RECONNECT__", some cfg.key⟩).registry
        = (i, st.clients.length) :: st.registry ∧
    (onSocketConnectionJS cfg st sock ⟨some i, some "__RECONNECT__", some cfg.key⟩).clients
        = st.clients ++ [⟨i, "__RECONNECT__", some sock⟩] ∧
    (onSocketConnectionJS cfg st sock ⟨some i, some "__RECONNECT__", some cfg.key⟩).registry
        = (i, st.clients.length) :: st.registry ∧
    (onSocketConnectionTS cfg ft2
        (onSocketConnectionTS cfg ft st sock ⟨some i, some "__RECONNECT__", some cfg.key⟩)
        sock2 ⟨some i, some "__RECONNECT__", some cfg.key⟩).events
      = st.events ++ [Event.connectionReady st.clients.length,
          Event.evicted st.clients.length,
          Event.connectionReady (st.clients.length + 1)] ∧
    (onSocketConnectionTS cfg ft2
        (onSocketConnectionTS cfg ft st sock ⟨some i, some "__RECONNECT__", some cfg.key⟩)
        sock2 ⟨some i, some "__RECONNECT__", some cfg.key⟩).clients.length
      = st.clients.length + 2 ∧
    clientAt (onSocketConnectionTS cfg ft2
        (onSocketConnectionTS cfg ft st sock ⟨some i, some "__RECONNECT__", some cfg.key⟩)
        sock2 ⟨some i, some "__RECONNECT__", some cfg.key⟩) (st.clients.length + 1)
      = ⟨i, ft2, some sock2⟩ ∧
    (onSocketConnectionJS cfg
        (onSocketConnectionJS cfg st sock ⟨some i, some "__RECONNECT__", some cfg.key⟩)
        sock2 ⟨some i, some "__RECONNECT__", some cfg.key⟩).events
      = st.events ++ [Event.connectionReady st.clients.length,
          Event.evicted st.clients.length,
          Event.connectionReady (st.clients.length + 1)] ∧
    (onSocketConnectionJS cfg
        (onSocketConnectionJS cfg st sock ⟨some i, some "__RECONNECT__", some cfg.key⟩)
        sock2 ⟨some i, some "__RECONNECT__", some cfg.key⟩).clients.length
      = st.clients.length + 2 ∧
    clientAt (onSocketConnectionJS cfg
        (onSocketConnectionJS cfg st sock ⟨some i, some "__RECONNECT__", some cfg.key⟩)
        sock2 ⟨some i, some "__RECONNECT__", some cfg.key⟩) (st.clients.length + 1)
      = ⟨i, "__RECONNECT__", some sock2⟩ := by
  have hsl : ¬("__RECONNECT__" : String) = "" := by decide
  have heT : onSocketConnectionTS cfg ft st sock ⟨some i, some "__RECONNECT__", some cfg.key⟩
      = registerClient cfg st sock i "__RECONNECT__" := by
    unfold onSocketConnectionTS
    simp [falsy, hi, hk, hsl, hnone]
  have heJ : onSocketConnectionJS cfg st sock ⟨some i, some "__RECONNECT__", some cfg.key⟩
      = registerClient cfg st sock i "__RECONNECT__" := by
    unfold onSocketConnectionJS
    simp [falsy, hi, hk, hsl, hnone]
  have hR : registerClient cfg st sock i "__RECONNECT__"
      = configureWS (sendFrame (setClient { st with
          clients := st.clients ++ [⟨i, "__RECONNECT__", none⟩] } i st.clients.length)
          sock .openF) sock st.clients.length := by
    unfold registerClient
    rw [if_neg (not_le.mpr (show clientsCount st < cfg.concurrent_limit from hlim))]
  have hRcl : (registerClient cfg st sock i "__RECONNECT__").clients
      = st.clients ++ [⟨i, "__RECONNECT__", some sock⟩] := by
    rw [hR, configureWS_clients]
    simp only [sendFrame_clients, setClient_clients]
    exact modifyIdx_append_length _ _ _
  have hRreg : (registerClient cfg st sock i "__RECONNECT__").registry
      = (i, st.clients.length) :: st.registry := by
    rw [hR]
    rfl
  have hRev : (registerClient cfg st sock i "__RECONNECT__").events
      = st.events ++ [Event.connectionReady st.clients.length] := by
    rw [hR]
    rfl
  have hRsock : (registerClient cfg st sock i "__RECONNECT__").sockets
      = modifyIdx st.sockets sock (fun sd => { sd with sent := sd.sent ++ [Frame.openF] }) := by
    rw [hR]
    rfl
  have hGet : getClientById (registerClient cfg st sock i "__RECONNECT__") i
      = some st.clients.length := by
    unfold getClientById
    rw [hRreg, List.find?_cons_of_pos _ (by simp)]
    rfl
  have hclAt : clientAt (registerClient cfg st sock i "__RECONNECT__") st.clients.length
      = ⟨i, "__RECONNECT__", some sock⟩ := by
    unfold clientAt
    rw [hRcl]
    exact getD_append_length _ _ _
  have hRegOk : RegOk (registerClient cfg st sock i "__RECONNECT__") := by
    unfold RegOk
    rw [hRreg, List.map_cons, List.nodup_cons]
    refine ⟨?_, hreg⟩
    intro hmem
    rcases List.mem_map.mp hmem with ⟨p, hp, hfst⟩
    have hfn : st.registry.find? (fun p => p.1 = i) = none := Option.map_eq_none'.mp hnone
    have := List.find?_eq_none.mp hfn p hp
    simp only [decide_eq_true_eq] at this
    exact this hfst
  have hcl2 : st.clients.length < (registerClient cfg st sock i "__RECONNECT__").clients.length := by
    rw [hRcl]
    simp
  have hRlen : (registerClient cfg st sock i "__RECONNECT__").clients.length
      = st.clients.length + 1 := by
    rw [hRcl]
    simp
  have hr2 : (evict (registerClient cfg st sock i "__RECONNECT__") i st.clients.length).2
      = false := by
    rw [evict_snd_some _ i st.clients.length sock (by rw [hclAt])]
    unfold socketAt
    rw [hRsock, getD_modifyIdx_self _ _ _ _ hsock]
    simpa [socketAt] using hcr
  have hlimR : (registerClient cfg st sock i "__RECONNECT__").registry.length
      ≤ cfg.concurrent_limit := by
    rw [hRreg]
    simpa using hlim
  have bT := (evictThenRegister_effects cfg (registerClient cfg st sock i "__RECONNECT__")
    sock2 st.clients.length i ft2 hGet hcl2 hRegOk).2.2.2.2.2.1 hr2 hlimR
  have bJ := (evictThenRegister_effects cfg (registerClient cfg st sock i "__RECONNECT__")
    sock2 st.clients.length i "__RECONNECT__" hGet hcl2 hRegOk).2.2.2.2.2.1 hr2 hlimR
  have h2T := ts_reconnect_reduce cfg ft2 (registerClient cfg st sock i "__RECONNECT__")
    sock2 st.clients.length i hi hk hGet
  have h2J := js_reconnect_reduce cfg (registerClient cfg st sock i "__RECONNECT__")
    sock2 st.clients.length i hi hk hGet
  rw [heT, heJ, h2T, h2J]
  refine ⟨hRcl, hRreg, hRcl, hRreg, ?_, ?_, ?_, ?_, ?_, ?_⟩
  · rw [bT.2.2.2, hRev, hRlen, List.append_assoc]
    rfl
  · rw [bT.1]
    simp [hRlen]
  · rw [← hRlen]
    exact bT.2.1
  · rw [bJ.2.2.2, hRev, hRlen, List.append_assoc]
    rfl
  · rw [bJ.1]
    simp [hRlen]
  · rw [← hRlen]
    exact bJ.2.1

theorem sentinel_registration_then_evict_witness :
    (onSocketConnectionTS ⟨"k", 5⟩ "f" oneSock 0
        ⟨some "A", some "__RECONNECT__", some "k"⟩).clients
      = [⟨"A", "__RECONNECT__", some 0⟩] ∧
    (onSocketConnectionTS ⟨"k", 5⟩ "g"
        (onSocketConnectionTS ⟨"k", 5⟩ "f" oneSock 0
          ⟨some "A", some "__RECONNECT__", some "k"⟩) 1
        ⟨some "A", some "__RECONNECT__", some "k"⟩).events
      = [Event.connectionReady 0, Event.evicted 0, Event.connectionReady 1] := by
  have h := sentinel_registration_then_evict ⟨"k", 5⟩ "f" "g" oneSock 0 1 "A"
    (by decide) (by decide) (by decide) (by unfold RegOk; decide) (by decide) (by decide)
    (by decide)
  exact ⟨by simpa [oneSock] using h.1, by simpa [oneSock] using h.2.2.2.2.1⟩

theorem regok_of_registry_eq (st st' : ServerState) (h : st'.registry = st.registry)
    (hr : RegOk st) : RegOk st' := by
  unfold RegOk
  rw [h]
  exact hr

theorem regok_eraseP (st : ServerState) (i : String) (hr : RegOk st) :
    ((st.registry.eraseP (fun p => p.1 = i)).map Prod.fst).Nodup :=
  hr.sublist (List.Sublist.map _ (List.eraseP_sublist _))

theorem regok_registerClient (cfg : Config) (st : ServerState) (sock : Nat) (i tok : String)
    (hr : RegOk st) (hnone : getClientById st i = none) :
    RegOk (registerClient cfg st sock i tok) := by
  unfold registerClient
  split
  · exact regok_of_registry_eq _ _ (sendErrorAndClose_registry _ _ _) hr
  · unfold RegOk
    simp only [configureWS_registry, sendFrame_registry, setClient_registry, List.map_cons,
      List.nodup_cons]
    refine ⟨?_, hr⟩
    intro hmem
    rcases List.mem_map.mp hmem with ⟨p, hp, hfst⟩
    have hfn : st.registry.find? (fun p => p.1 = i) = none := Option.map_eq_none'.mp hnone
    have hnp := List.find?_eq_none.mp hfn p hp
    simp only [decide_eq_true_eq] at hnp
    exact hnp hfst

theorem regok_evictThenRegister (cfg : Config) (st : ServerState) (sock c : Nat)
    (i tok : String) (hr : RegOk st) :
    RegOk (evictThenRegister cfg st sock i tok c) := by
  unfold evictThenRegister
  split
  · unfold RegOk
    rw [evict_fst_registry]
    exact regok_eraseP st i hr
  · refine regok_registerClient cfg (evict st i c).1 sock i tok ?_ ?_
    · unfold RegOk
      rw [evict_fst_registry]
      exact regok_eraseP st i hr
    · unfold getClientById
      rw [evict_fst_registry, find?_eraseP_self_eq_none _ _ hr]
      rfl

theorem regok_onSocketConnectionTS (cfg : Config) (ft : String) (st : ServerState)
    (sock : Nat) (q : Query) (hr : RegOk st) :
    RegOk (onSocketConnectionTS cfg ft st sock q) := by
  unfold onSocketConnectionTS
  split
  · exact regok_of_registry_eq _ _ (sendErrorAndClose_registry _ _ _) hr
  · dsimp only
    split
    · exact regok_of_registry_eq _ _ (sendErrorAndClose_registry _ _ _) hr
    · split
      · rename_i c heq
        split
        · exact regok_evictThenRegister cfg st sock c (q.id.getD "") ft hr
        · split
          · exact regok_of_registry_eq _ _ (by simp) hr
          · exact regok_of_registry_eq _ _ (configureWS_registry _ _ _) hr
      · rename_i heq
        exact regok_registerClient cfg st sock (q.id.getD "") (q.token.getD "") hr heq

theorem regok_onSocketConnectionJS (cfg : Config) (st : ServerState)
    (sock : Nat) (q : Query) (hr : RegOk st) :
    RegOk (onSocketConnectionJS cfg st sock q) := by
  unfold onSocketConnectionJS
  split
  · exact regok_of_registry_eq _ _ (sendErrorAndClose_registry _ _ _) hr
  · dsimp only
    split
    · exact regok_of_registry_eq _ _ (sendErrorAndClose_registry _ _ _) hr
    · split
      · rename_i c heq
        split
        · exact regok_evictThenRegister cfg st sock c (q.id.getD "") (q.token.getD "") hr
        · split
          · exact regok_of_registry_eq _ _ (by simp) hr
          · exact regok_of_registry_eq _ _ (configureWS_registry _ _ _) hr
      · rename_i heq
        exact regok_registerClient cfg st sock (q.id.getD "") (q.token.getD "") hr heq

theorem regok_runCloseHandler (st : ServerState) (sock c : Nat) (hr : RegOk st) :
    RegOk (runCloseHandler st sock c) := by
  unfold runCloseHandler
  split
  · unfold RegOk
    simp only [emit_registry]
    rw [removeClientById_registry]
    exact regok_eraseP st _ hr
  · exact hr

theorem regok_runMessageHandler (st : ServerState) (c : Nat) (d : RawData) (hr : RegOk st) :
    RegOk (runMessageHandler st c d) := by
  unfold runMessageHandler
  split
  · exact regok_of_registry_eq _ _ (emit_registry _ _) hr
  · exact regok_of_registry_eq _ _ (emit_registry _ _) hr

theorem foldl_regok {α : Type} (f : ServerState → α → ServerState)
    (hf : ∀ s a, RegOk s → RegOk (f s a)) :
    ∀ (l : List α) (s : ServerState), RegOk s → RegOk (l.foldl f s) := by
  intro l
  induction l with
  | nil => exact fun s hs => hs
  | cons a t ih => exact fun s hs => ih _ (hf s a hs)

theorem regok_applyStep (regen : Bool) (cfg : Config) (st : ServerState) (s : SStep)
    (hr : RegOk st) : RegOk (applyStep regen cfg st s) := by
  cases s with
  | connect q r ftk =>
    cases regen with
    | true =>
      exact regok_onSocketConnectionTS cfg ftk (newSocket st r).1 (newSocket st r).2 q
        (regok_of_registry_eq _ st rfl hr)
    | false =>
      exact regok_onSocketConnectionJS cfg (newSocket st r).1 (newSocket st r).2 q
        (regok_of_registry_eq _ st rfl hr)
  | closeEvt so =>
    exact foldl_regok _ (fun s' a h => regok_runCloseHandler s' so a.2 h) _ _ hr
  | msgEvt so d =>
    exact foldl_regok _ (fun s' a h => regok_runMessageHandler s' a.2 d h) _ _ hr

theorem countP_le_one_of_nodup_keys (l : List (String × Nat))
    (h : (l.map Prod.fst).Nodup) (id : String) :
    l.countP (fun p => p.1 = id) ≤ 1 := by
  induction l with
  | nil => simp
  | cons a t ih =>
    rw [List.map_cons, List.nodup_cons] at h
    rw [List.countP_cons]
    by_cases ha : a.1 = id
    · have hz : t.countP (fun p => p.1 = id) = 0 := by
        rw [List.countP_eq_zero]
        intro p hp
        simp only [decide_eq_true_eq]
        intro hcon
        exact h.1 (List.mem_map.mpr ⟨p, hp, hcon.trans ha.symm⟩)
      simp [hz, ha]
    · have hd : decide (a.1 = id) = false := decide_eq_false ha
      simp only [hd, if_false]
      exact le_trans (by simpa using ih h.2) (by simp)

/-- C2: in every state reachable from the empty server — under any
sequence of connection attempts, transport close events and inbound
data, with either variant — the registry holds at most one session
binding per identifier: registrations only insert after a lookup found
no session or after the found session was evicted, rebinds and rejects
insert nothing, and removals preserve the property. -/
theorem registry_at_most_one_per_id (regen : Bool) (cfg : Config) (st : ServerState)
    (h : Reachable regen cfg st) :
    ∀ id, st.registry.countP (fun p => p.1 = id) ≤ 1 := by
  have hr : RegOk st := by
    induction h with
    | init =>
      unfold RegOk initState
      simp
    | step s hst ih => exact regok_applyStep _ _ _ s ih
  exact fun id => countP_le_one_of_nodup_keys _ hr id

theorem registry_at_most_one_per_id_witness :
    (applyStep true ⟨"k", 5⟩
        (applyStep true ⟨"k", 5⟩ initState
          (SStep.connect ⟨some "A", some "t1", some "k"⟩ false "f"))
        (SStep.connect ⟨some "A", some "__RECONNECT__", some "k"⟩ false "g")).registry.countP
      (fun p => p.1 = "A") ≤ 1 :=
  registry_at_most_one_per_id true ⟨"k", 5⟩ _
    (Reachable.step _ (Reachable.step _ Reachable.init)) "A"
